import Mathlib

/-!
# Verification of the Bulwk daemon intent-execution engine

A shallow embedding, in Lean 4, of the parts of the Bulwk daemon that the
specification's testable properties talk about:

* the fixed-point liquidity math library (`getSqrtRatioAtTick`,
  `getLiquidityForAmounts`, `getAmountsForLiquidity`) — translated from the
  BigInt arithmetic of the source; JS `BigInt` division on the non-negative
  values occurring here is truncating division, i.e. `Nat` division, and
  `x >> k` is `x / 2 ^ k`;
* the position state tracker (the `activePositions` / `closedPositions`
  sets of `DaemonController`) together with the REBALANCE path of
  `DaemonController.executeIntent`, modelled as a state-transition function
  over an explicit environment describing the outcomes of the chain and
  platform calls (network I/O is abstracted into oracle fields; the branch
  structure and every set mutation mirror the source);
* the escalating slippage ladder of the REBALANCE execution
  (`SWAP_SLIPPAGE_TIERS`) and the per-attempt transaction loop;
* `IntentVerifier.validatePolicy`, with the wall-clock hour the code reads
  via `new Date().getHours()` made an explicit argument;
* the Grace Period Monitor's harvest decision
  (`GracePeriodMonitor.handlePositionInGracePeriod`).

Configuration loading and provider construction (which happen before any
position logic and touch no position state) are not modelled; their failure
aborts an intent before the code reached here.
-/

namespace Bulwk

/-! ## Liquidity math library (src/unnamed/part_002) -/

/-- `Q96 = 2^96`, the fixed-point scale of sqrt prices. -/
def Q96 : ℕ := 2 ^ 96

/-- One step of the bit-decomposition product in `getSqrtRatioAtTick`:
`ratio = (ratio * c) >> 128` when the corresponding bit of `absTick` is set. -/
def mulShift (acc c : ℕ) (bitSet : Bool) : ℕ :=
  if bitSet then acc * c / 2 ^ 128 else acc

/-- `getSqrtRatioAtTick` from the math library: Q64.96 sqrt price for a tick.
Ticks with `|tick| > 887272` throw (`'Tick out of bounds'`), modelled as
`none`.  The 20 magic constants and the reciprocal step for positive ticks
are taken verbatim from the source. -/
def getSqrtRatioAtTick (tick : ℤ) : Option ℕ :=
  let absTick : ℕ := tick.natAbs
  if absTick > 887272 then none
  else
    let r := if absTick.testBit 0 then 0xfffcb933bd6fad37aa2d162d1a594001
             else 0x100000000000000000000000000000000
    let r := mulShift r 0xfff97272373d413259a46990580e213a (absTick.testBit 1)
    let r := mulShift r 0xfff2e50f5f656932ef12357cf3c7fdcc (absTick.testBit 2)
    let r := mulShift r 0xffe5caca7e10e4e61c3624eaa0941cd0 (absTick.testBit 3)
    let r := mulShift r 0xffcb9843d60f6159c9db58835c926644 (absTick.testBit 4)
    let r := mulShift r 0xff973b41fa98c081472e6896dfb254c0 (absTick.testBit 5)
    let r := mulShift r 0xff2ea16466c96a3843ec78b326b52861 (absTick.testBit 6)
    let r := mulShift r 0xfe5dee046a99a2a811c461f1969c3053 (absTick.testBit 7)
    let r := mulShift r 0xfcbe86c7900a88aedcffc83b479aa3a4 (absTick.testBit 8)
    let r := mulShift r 0xf987a7253ac413176f2b074cf7815e54 (absTick.testBit 9)
    let r := mulShift r 0xf3392b0822b70005940c7a398e4b70f3 (absTick.testBit 10)
    let r := mulShift r 0xe7159475a2c29b7443b29c7fa6e889d9 (absTick.testBit 11)
    let r := mulShift r 0xd097f3bdfd2022b8845ad8f792aa5825 (absTick.testBit 12)
    let r := mulShift r 0xa9f746462d870fdf8a65dc1f90e061e5 (absTick.testBit 13)
    let r := mulShift r 0x70d869a156d2a1b890bb3df62baf32f7 (absTick.testBit 14)
    let r := mulShift r 0x31be135f97d08fd981231505542fcfa6 (absTick.testBit 15)
    let r := mulShift r 0x9aa508b5b7a84e1c677de54f3e99bc9 (absTick.testBit 16)
    let r := mulShift r 0x5d6af8dedb81196699c329225ee604 (absTick.testBit 17)
    let r := mulShift r 0x2216e584f5fa1ea926041bedfe98 (absTick.testBit 18)
    let r := mulShift r 0x48a170391f7dc42444e8fa2 (absTick.testBit 19)
    let r := if tick > 0 then (2 ^ 256 - 1) / r else r
    some (r / 2 ^ 32)

/-- `getLiquidity0(sqrtRatioAX96, sqrtRatioBX96, amount0)`: liquidity implied
by `amount0` between the two (order-normalized) sqrt prices. -/
def getLiquidity0 (sqrtA sqrtB amount0 : ℕ) : ℕ :=
  let a := if sqrtA > sqrtB then sqrtB else sqrtA
  let b := if sqrtA > sqrtB then sqrtA else sqrtB
  amount0 * b * a / (Q96 * (b - a))

/-- `getLiquidity1(sqrtRatioAX96, sqrtRatioBX96, amount1)`: liquidity implied
by `amount1` between the two (order-normalized) sqrt prices. -/
def getLiquidity1 (sqrtA sqrtB amount1 : ℕ) : ℕ :=
  let a := if sqrtA > sqrtB then sqrtB else sqrtA
  let b := if sqrtA > sqrtB then sqrtA else sqrtB
  amount1 * Q96 / (b - a)

/-- `getLiquidityForAmounts`: the three-region piecewise liquidity formula.
Inside range the source special-cases `amount0 === 0` and `amount1 === 0`
before taking the minimum; those branches are kept verbatim. -/
def getLiquidityForAmounts (sqrtP sqrtA sqrtB amount0 amount1 : ℕ) : ℕ :=
  let a := if sqrtA > sqrtB then sqrtB else sqrtA
  let b := if sqrtA > sqrtB then sqrtA else sqrtB
  if sqrtP ≤ a then
    getLiquidity0 a b amount0
  else if sqrtP ≥ b then
    getLiquidity1 a b amount1
  else if amount0 = 0 then
    getLiquidity1 a sqrtP amount1
  else if amount1 = 0 then
    getLiquidity0 sqrtP b amount0
  else
    let liquidity0 := getLiquidity0 sqrtP b amount0
    let liquidity1 := getLiquidity1 a sqrtP amount1
    if liquidity0 < liquidity1 then liquidity0 else liquidity1

/-- `getAmount0ForLiquidity(sqrtRatioAX96, sqrtRatioBX96, liquidity)`. -/
def getAmount0ForLiquidity (sqrtA sqrtB liquidity : ℕ) : ℕ :=
  let a := if sqrtA > sqrtB then sqrtB else sqrtA
  let b := if sqrtA > sqrtB then sqrtA else sqrtB
  liquidity * Q96 * (b - a) / (b * a)

/-- `getAmount1ForLiquidity(sqrtRatioAX96, sqrtRatioBX96, liquidity)`. -/
def getAmount1ForLiquidity (sqrtA sqrtB liquidity : ℕ) : ℕ :=
  let a := if sqrtA > sqrtB then sqrtB else sqrtA
  let b := if sqrtA > sqrtB then sqrtA else sqrtB
  liquidity * (b - a) / Q96

/-- `getAmountsForLiquidity`: token amounts `(amount0, amount1)` for a
liquidity value, three-region structure as in the source. -/
def getAmountsForLiquidity (sqrtP sqrtA sqrtB liquidity : ℕ) : ℕ × ℕ :=
  let a := if sqrtA > sqrtB then sqrtB else sqrtA
  let b := if sqrtA > sqrtB then sqrtA else sqrtB
  if sqrtP ≤ a then
    (getAmount0ForLiquidity a b liquidity, 0)
  else if sqrtP ≥ b then
    (0, getAmount1ForLiquidity a b liquidity)
  else
    (getAmount0ForLiquidity sqrtP b liquidity,
     getAmount1ForLiquidity a sqrtP liquidity)

/-- `amountsForLiquidity` followed by `liquidityForAmounts` on the derived
amounts, at the same sqrt prices (the round trip of the spec's testable
property). -/
def roundTripLiquidity (sqrtP sqrtA sqrtB liquidity : ℕ) : ℕ :=
  let am := getAmountsForLiquidity sqrtP sqrtA sqrtB liquidity
  getLiquidityForAmounts sqrtP sqrtA sqrtB am.1 am.2

/-- The integer-truncation tolerance of the round trip: each of the two
floor divisions of a forward/backward pair can lose at most
`divisor/dividend-scale` plus one unit; this is the region-wise bound. -/
def truncTol (sqrtP sqrtA sqrtB : ℕ) : ℕ :=
  if sqrtP ≤ sqrtA then sqrtB * sqrtA / (Q96 * (sqrtB - sqrtA)) + 1
  else if sqrtP ≥ sqrtB then Q96 / (sqrtB - sqrtA) + 1
  else sqrtB * sqrtP / (Q96 * (sqrtB - sqrtP)) + Q96 / (sqrtP - sqrtA) + 2

/-! ## Theorems about the math library -/

/-- **C6.** `sqrtPriceAtTick` fails with a domain error for every tick
outside `[-887272, 887272]` — in particular for `887273` and `-887273` —
never silently clamps (out-of-domain input yields no value at all), and at
tick `0` returns exactly `2^96`. -/
theorem sqrtRatioAtTick_domain_and_zero :
    (∀ tick : ℤ, 887272 < tick.natAbs → getSqrtRatioAtTick tick = none) ∧
    getSqrtRatioAtTick 887273 = none ∧
    getSqrtRatioAtTick (-887273) = none ∧
    getSqrtRatioAtTick 0 = some (2 ^ 96) := by
  refine ⟨fun tick h => ?_, by decide, by decide, by decide⟩
  unfold getSqrtRatioAtTick
  simp only [gt_iff_lt, h, if_pos]

/-- Witness for C6: the domain clause applied at the concrete tick 887273. -/
theorem sqrtRatioAtTick_domain_witness :
    887272 < (887273 : ℤ).natAbs ∧ getSqrtRatioAtTick 887273 = none :=
  ⟨by decide, sqrtRatioAtTick_domain_and_zero.1 887273 (by decide)⟩

/-- **C7 counterexample.** Inside range with `amount0 = 0` the source
returns `getLiquidity1(sqrtA, sqrtP, amount1)` rather than the minimum of
the two per-token liquidities (which would be `0`, since zero `amount0`
implies zero liquidity by the `getLiquidity0` formula).  Concretely, at
`sqrtA = Q96`, `sqrtP = 3·2^95`, `sqrtB = 2·Q96`, `amount0 = 0`,
`amount1 = 5`, the price is strictly inside the range yet the function
returns `10`, not `min 0 10 = 0`. -/
theorem liquidityForAmounts_not_min_at_zero_amount0 :
    Q96 < 3 * 2 ^ 95 ∧ 3 * 2 ^ 95 < 2 * Q96 ∧
    getLiquidityForAmounts (3 * 2 ^ 95) Q96 (2 * Q96) 0 5 = 10 ∧
    min (getLiquidity0 (3 * 2 ^ 95) (2 * Q96) 0)
        (getLiquidity1 Q96 (3 * 2 ^ 95) 5) = 0 := by
  refine ⟨by norm_num [Q96], by norm_num [Q96], ?_, ?_⟩ <;>
    norm_num [getLiquidityForAmounts, getLiquidity0, getLiquidity1, Q96]

/-- **C7 (amended).** Inside range — current sqrt price strictly between the
ordered bounds — and with both token amounts nonzero,
`getLiquidityForAmounts` returns the minimum of the liquidity implied by
`amount0` (via `getLiquidity0` between price and upper bound) and the
liquidity implied by `amount1` (via `getLiquidity1` between lower bound and
price); when exactly one amount is zero the source instead returns the
liquidity implied by the other amount alone. -/
theorem liquidityForAmounts_inside_is_min
    (sqrtP sqrtA sqrtB amount0 amount1 : ℕ)
    (hab : sqrtA < sqrtB) (hpa : sqrtA < sqrtP) (hpb : sqrtP < sqrtB)
    (h0 : amount0 ≠ 0) (h1 : amount1 ≠ 0) :
    getLiquidityForAmounts sqrtP sqrtA sqrtB amount0 amount1 =
      min (getLiquidity0 sqrtP sqrtB amount0)
          (getLiquidity1 sqrtA sqrtP amount1) := by
  unfold getLiquidityForAmounts
  have hnot : ¬ sqrtA > sqrtB := not_lt.mpr hab.le
  simp only [hnot, if_false, not_le.mpr hpa, ge_iff_le, not_le.mpr hpb,
    if_false, h0, h1, if_false]
  split_ifs with h
  · exact (min_eq_left h.le).symm
  · exact (min_eq_right (not_lt.mp h)).symm

/-- Witness for C7's amended theorem at concrete inside-range inputs. -/
theorem liquidityForAmounts_inside_is_min_witness :
    getLiquidityForAmounts (3 * 2 ^ 95) Q96 (2 * Q96) 7 5 =
      min (getLiquidity0 (3 * 2 ^ 95) (2 * Q96) 7)
          (getLiquidity1 Q96 (3 * 2 ^ 95) 5) :=
  liquidityForAmounts_inside_is_min (3 * 2 ^ 95) Q96 (2 * Q96) 7 5
    (by norm_num [Q96]) (by norm_num [Q96]) (by norm_num [Q96])
    (by norm_num) (by norm_num)

/-! ### The round trip `amountsForLiquidity` / `liquidityForAmounts` (C8)

Every amount/liquidity conversion in the library is a floor division
`x * u / v`; the inverse step divides back by the same pair, so the
whole round trip has the shape `(L * u / v) * v / u`.  The two lemmas
below bound such a composition from both sides, and the regional theorem
assembles them. -/

lemma lt_div_succ_mul (a b : ℕ) (hb : 0 < b) : a < (a / b + 1) * b := by
  have h := Nat.div_add_mod a b
  have h2 := Nat.mod_lt a hb
  calc a = b * (a / b) + a % b := h.symm
    _ < b * (a / b) + b := by omega
    _ = (a / b + 1) * b := by ring

lemma div_pair_le (L u v : ℕ) (hu : 0 < u) : L * u / v * v / u ≤ L := by
  have h1 : L * u / v * v ≤ L * u := Nat.div_mul_le_self (L * u) v
  calc L * u / v * v / u ≤ L * u / u := Nat.div_le_div_right h1
    _ = L := Nat.mul_div_cancel L hu

lemma div_pair_ge (L u v : ℕ) (hu : 0 < u) (hv : 0 < v) :
    L ≤ L * u / v * v / u + v / u + 1 := by
  have hA : L * u < (L * u / v + 1) * v := lt_div_succ_mul (L * u) v hv
  have hB : L * u / v * v < (L * u / v * v / u + 1) * u :=
    lt_div_succ_mul (L * u / v * v) u hu
  have hC : v < (v / u + 1) * u := lt_div_succ_mul v u hu
  have hK : L * u < (L * u / v * v / u + 1 + (v / u + 1)) * u := by
    calc L * u < (L * u / v + 1) * v := hA
      _ = L * u / v * v + v := by ring
      _ < (L * u / v * v / u + 1) * u + (v / u + 1) * u := by omega
      _ = (L * u / v * v / u + 1 + (v / u + 1)) * u := by ring
  have := Nat.lt_of_mul_lt_mul_right hK
  omega

lemma getLiquidity0_eq (a b am : ℕ) (h : ¬ a > b) :
    getLiquidity0 a b am = am * b * a / (Q96 * (b - a)) := by
  unfold getLiquidity0
  simp only [h, if_false]

lemma getLiquidity1_eq (a b am : ℕ) (h : ¬ a > b) :
    getLiquidity1 a b am = am * Q96 / (b - a) := by
  unfold getLiquidity1
  simp only [h, if_false]

lemma getAmount0ForLiquidity_eq (a b L : ℕ) (h : ¬ a > b) :
    getAmount0ForLiquidity a b L = L * Q96 * (b - a) / (b * a) := by
  unfold getAmount0ForLiquidity
  simp only [h, if_false]

lemma getAmount1ForLiquidity_eq (a b L : ℕ) (h : ¬ a > b) :
    getAmount1ForLiquidity a b L = L * (b - a) / Q96 := by
  unfold getAmount1ForLiquidity
  simp only [h, if_false]

/-- Bounds for the `amount0` pair: forward `getAmount0ForLiquidity x y L`,
backward `getLiquidity0 x y`, both with `0 < x ≤ y` ordered bounds. -/
lemma amount0_pair_bounds (x y L : ℕ) (hx : 0 < x) (hxy : x < y) :
    getLiquidity0 x y (getAmount0ForLiquidity x y L) ≤ L ∧
    L ≤ getLiquidity0 x y (getAmount0ForLiquidity x y L) +
        y * x / (Q96 * (y - x)) + 1 := by
  have hnot : ¬ x > y := not_lt.mpr hxy.le
  have hu : 0 < Q96 * (y - x) := by
    have : 0 < Q96 := by norm_num [Q96]
    exact Nat.mul_pos this (by omega)
  have hv : 0 < y * x := Nat.mul_pos (lt_trans hx hxy) hx
  rw [getLiquidity0_eq _ _ _ hnot, getAmount0ForLiquidity_eq _ _ _ hnot]
  constructor
  · have := div_pair_le L (Q96 * (y - x)) (y * x) hu
    simpa [mul_assoc] using this
  · have := div_pair_ge L (Q96 * (y - x)) (y * x) hu hv
    simpa [mul_assoc] using this

/-- Bounds for the `amount1` pair: forward `getAmount1ForLiquidity x y L`,
backward `getLiquidity1 x y`, with `x < y` ordered bounds. -/
lemma amount1_pair_bounds (x y L : ℕ) (hxy : x < y) :
    getLiquidity1 x y (getAmount1ForLiquidity x y L) ≤ L ∧
    L ≤ getLiquidity1 x y (getAmount1ForLiquidity x y L) +
        Q96 / (y - x) + 1 := by
  have hnot : ¬ x > y := not_lt.mpr hxy.le
  have hu : 0 < y - x := by omega
  have hv : 0 < Q96 := by norm_num [Q96]
  rw [getLiquidity1_eq _ _ _ hnot, getAmount1ForLiquidity_eq _ _ _ hnot]
  exact ⟨div_pair_le L (y - x) Q96 hu, div_pair_ge L (y - x) Q96 hu hv⟩

/-- **C8.** For every pair of ordered positive sqrt-price bounds (as induced
by a valid tick range), any current sqrt price, and any liquidity value,
computing `amountsForLiquidity` and feeding the derived amounts back into
`liquidityForAmounts` at the same sqrt prices recovers the original
liquidity within integer-truncation tolerance: the recovered value never
exceeds the original, and falls short of it by at most `truncTol`, the
bound generated by the floor divisions of the forward/backward pair in the
relevant price region. -/
theorem roundTripLiquidity_recovers (sqrtP sqrtA sqrtB L : ℕ)
    (ha : 0 < sqrtA) (hab : sqrtA < sqrtB) :
    roundTripLiquidity sqrtP sqrtA sqrtB L ≤ L ∧
    L ≤ roundTripLiquidity sqrtP sqrtA sqrtB L + truncTol sqrtP sqrtA sqrtB := by
  have hnot : ¬ sqrtA > sqrtB := not_lt.mpr hab.le
  unfold roundTripLiquidity getAmountsForLiquidity truncTol
  by_cases h1 : sqrtP ≤ sqrtA
  · -- price at or below the range: only amount0 is produced
    simp only [hnot, if_false, h1, if_true]
    unfold getLiquidityForAmounts
    simp only [hnot, if_false, h1, if_true]
    exact amount0_pair_bounds sqrtA sqrtB L ha hab
  · by_cases h2 : sqrtP ≥ sqrtB
    · -- price at or above the range: only amount1 is produced
      simp only [hnot, if_false, h1, if_false, h2, if_true]
      unfold getLiquidityForAmounts
      simp only [hnot, if_false, h1, if_false, h2, if_true]
      exact amount1_pair_bounds sqrtA sqrtB L hab
    · -- price inside the range
      have hpa : sqrtA < sqrtP := not_le.mp h1
      have hpb : sqrtP < sqrtB := not_le.mp (by simpa using h2)
      simp only [hnot, if_false, h1, if_false, h2, if_false]
      unfold getLiquidityForAmounts
      simp only [hnot, if_false, h1, if_false, h2, if_false]
      have k0 := amount0_pair_bounds sqrtP sqrtB L (lt_trans ha hpa) hpb
      have k1 := amount1_pair_bounds sqrtA sqrtP L hpa
      by_cases hz0 : getAmount0ForLiquidity sqrtP sqrtB L = 0
      · simp only [hz0, if_true]
        constructor
        · exact k1.1
        · omega
      · simp only [hz0, if_false]
        by_cases hz1 : getAmount1ForLiquidity sqrtA sqrtP L = 0
        · simp only [hz1, if_true]
          constructor
          · exact k0.1
          · omega
        · simp only [hz1, if_false]
          split_ifs with hmin
          · exact ⟨k0.1, by omega⟩
          · exact ⟨k1.1, by omega⟩

/-- Witness for C8 at concrete inside-range inputs. -/
theorem roundTripLiquidity_recovers_witness :
    roundTripLiquidity (3 * 2 ^ 95) Q96 (2 * Q96) 1000000 ≤ 1000000 ∧
    1000000 ≤ roundTripLiquidity (3 * 2 ^ 95) Q96 (2 * Q96) 1000000 +
      truncTol (3 * 2 ^ 95) Q96 (2 * Q96) :=
  roundTripLiquidity_recovers (3 * 2 ^ 95) Q96 (2 * Q96) 1000000
    (by norm_num [Q96]) (by norm_num [Q96])

/-! ## Position state tracker and the REBALANCE path of
`DaemonController.executeIntent` (src/server/api/daemon-controller.js)

The daemon keeps two in-memory sets, `this.activePositions` and
`this.closedPositions`.  `executeIntent` for a REBALANCE intent runs, in
source order: the duplicate/closed gate (lines 1282–1312), the on-chain
validation block (ownerOf / positions decode / zero-liquidity / in-range,
lines 1314–1435), token approvals and pool-fee query (whose exceptions
reach the outer catch), the tier-preference check (1656–1669), a second
out-of-range check (1687–1702), and then the five-tier slippage ladder
(1711–2142).  The outer catch (2697–2807) retries once on transient errors
and otherwise releases the active lock.  Network and chain calls are
abstracted as oracle fields of an environment; every branch and set
mutation below mirrors the source. -/

/-- The daemon's two position sets. -/
structure Tracker where
  active : Finset ℕ
  closed : Finset ℕ
deriving DecidableEq

/-- Reasons of the `skipped` receipts the REBALANCE path can report. -/
inductive SkipReason
  | alreadyProcessing
  | alreadyClosed
  | notExists
  | notOwned
  | decodeFailed
  | zeroLiquidity
  | alreadyInRange
  | tierDisabled
  | driftPre
  | driftMid
deriving DecidableEq

/-- Terminal result of one REBALANCE `executeIntent` call, as reported in
the receipt: `skippedR` / `completedFull` (with the slippage tier that
succeeded) / `partR` (with the reported `completedTxs`) / `failedTiersR`
(with `attemptsExhausted`) / `failedOuterR` (outer catch).
`fellThroughR` marks the unreachable exit of an empty tier list. -/
inductive RebResult
  | skippedR (reason : SkipReason)
  | completedFull (slippageUsed : ℕ)
  | partR (completedTxs : ℕ)
  | failedTiersR (attemptsExhausted : ℕ)
  | failedOuterR
  | fellThroughR
deriving DecidableEq

/-- `SWAP_SLIPPAGE_TIERS` (daemon-controller.js line 1673). -/
def SWAP_SLIPPAGE_TIERS : List ℕ := [20, 50, 100, 200, 500]

/-- `MAX_RETRIES` of `executeIntent` (line 1242). -/
def MAX_RETRIES : ℕ := 2

/-- How one attempt of the ladder's `try` block ends: normal return with a
completed rebalance, a `partial` report, a skipped in-range drift report —
or a thrown error, handled by the ladder's catch. -/
inductive AttemptOutcome
  | completedA
  | partA (completedTxs : ℕ)
  | skipDriftA
  | throwA
deriving DecidableEq

/-- The observable effect of one ladder attempt: its outcome, the value of
the cross-attempt `positionClosed` flag afterwards, and the transactions it
submitted to chain. -/
structure AttemptStep where
  outcome : AttemptOutcome
  closedAfter : Bool
  submitted : List String

/-- Result of the whole ladder loop. -/
inductive LadderRes
  | completedL (slippageUsed attempts : ℕ)
  | partL (completedTxs : ℕ)
  | skippedDriftL
  | failedL (attemptsExhausted : ℕ)
  | fellThroughL
deriving DecidableEq

/-- Trace of a ladder run: final result, the slippage values actually
attempted (in order), and all transactions submitted across attempts. -/
structure LadderOut where
  res : LadderRes
  attempted : List ℕ
  submitted : List String
deriving DecidableEq

/-- The `for (tierIndex …)` loop over `SWAP_SLIPPAGE_TIERS` (lines
1711–2142), with each attempt's `try` body abstracted as the oracle `att`
(argument `k` is `tierIndex`, the `Bool` is the incoming `positionClosed`
flag).  A normal return exits the loop; a throw at the last tier reports
`failed` with `attemptsExhausted = SWAP_SLIPPAGE_TIERS.length`; a throw at
an earlier tier continues with the next slippage value. -/
def runLadderAux (att : ℕ → Bool → AttemptStep) :
    List ℕ → ℕ → Bool → LadderOut
  | [], _, _ => ⟨.fellThroughL, [], []⟩
  | tier :: rest, k, closedIn =>
    let step := att k closedIn
    match step.outcome with
    | .completedA => ⟨.completedL tier (k + 1), [tier], step.submitted⟩
    | .partA n => ⟨.partL n, [tier], step.submitted⟩
    | .skipDriftA => ⟨.skippedDriftL, [tier], step.submitted⟩
    | .throwA =>
      match rest with
      | [] => ⟨.failedL SWAP_SLIPPAGE_TIERS.length, [tier], step.submitted⟩
      | r :: rs =>
        let nxt := runLadderAux att (r :: rs) (k + 1) step.closedAfter
        ⟨nxt.res, tier :: nxt.attempted, step.submitted ++ nxt.submitted⟩

/-- The ladder as entered by the source: all five tiers, starting at
`tierIndex 0` with `positionClosed = false`. -/
def runLadder (att : ℕ → Bool → AttemptStep) : LadderOut :=
  runLadderAux att SWAP_SLIPPAGE_TIERS 0 false

/-- Oracle environment for one `executeIntent` attempt on a REBALANCE
intent: outcomes of the chain reads in the validation block, the
tier-preference lookup, the pre-ladder range check, whether the code
between the gate and the ladder throws (token approvals / pool-fee query /
unclassified validation errors) and whether such a throw is classified
transient, and the behaviour of each ladder attempt. -/
structure RebEnv where
  tokenExists : Bool
  owned : Bool
  decodeOk : Bool
  liqPositive : Bool
  inRangeFirst : Bool
  postGateThrows : Bool
  postGateTransient : Bool
  tierEnabled : Bool
  inRangePre : Bool
  att : ℕ → Bool → AttemptStep

/-- Result of one attempt body: a terminal receipt, or an exception
propagating to the outer catch (with its transient classification). -/
inductive OnceRes
  | done (r : RebResult)
  | raised (transient : Bool)
deriving DecidableEq

/-- State, result and submitted transactions of one attempt body. -/
structure ExecOut where
  state : Tracker
  res : OnceRes
  txs : List String

/-- Move a token id from `active` to `closed`
(`activePositions.delete(tokenId); closedPositions.add(tokenId)`). -/
def Tracker.moveToClosed (s : Tracker) (t : ℕ) : Tracker :=
  ⟨s.active.erase t, insert t s.closed⟩

/-- Outcome of the on-chain validation block (lines 1314–1435): the four
"position is gone" exits, the in-range exit, or fall-through. -/
inductive ValidationOut
  | vNotExists
  | vNotOwned
  | vDecodeFailed
  | vZeroLiq
  | vInRange
  | vOk
deriving DecidableEq

/-- The validation block's branch structure, in source order: `ownerOf`
reverting with an ERC721 error (lines 1414–1430), owner mismatch (lines
1326–1340), `positions()` decode failure (1343–1362), zero liquidity
(1364–1378), already in range (1397–1410). -/
def validation (env : RebEnv) : ValidationOut :=
  if ¬ env.tokenExists then .vNotExists
  else if ¬ env.owned then .vNotOwned
  else if ¬ env.decodeOk then .vDecodeFailed
  else if ¬ env.liqPositive then .vZeroLiq
  else if env.inRangeFirst then .vInRange
  else .vOk

/-- Conversion of the ladder's exit into the intent's receipt and set
mutation: full success (lines 2091–2095) marks the position closed; the
`partial` (1804–1813), mid-ladder drift (1725–1730) and tiers-exhausted
(2128–2135) exits all return without touching the sets. -/
def ladderOut (r : LadderRes) (sub : List String) (s1 : Tracker) (t : ℕ) : ExecOut :=
  match r with
  | .completedL slip _ => ⟨s1.moveToClosed t, .done (.completedFull slip), sub⟩
  | .partL n => ⟨s1, .done (.partR n), sub⟩
  | .skippedDriftL => ⟨s1, .done (.skippedR .driftMid), sub⟩
  | .failedL n => ⟨s1, .done (.failedTiersR n), sub⟩
  | .fellThroughL => ⟨s1, .done .fellThroughR, sub⟩

/-- Dispatch on the validation block's outcome `v`, starting from the
state `s1` in which the token id was just inserted into `activePositions`
(line 1310): the four "position is gone" exits move the id to
`closedPositions`; the in-range exit releases only the lock; fall-through
runs approvals / pool-fee (whose errors propagate to the outer catch),
the tier-preference check (1660–1669, which returns *without* releasing
the lock), the pre-ladder range check (1693–1702, likewise), and the
ladder. -/
def execBodyV (env : RebEnv) (v : ValidationOut) (s1 : Tracker) (t : ℕ) : ExecOut :=
  match v with
  | .vNotExists => ⟨s1.moveToClosed t, .done (.skippedR .notExists), []⟩
  | .vNotOwned => ⟨s1.moveToClosed t, .done (.skippedR .notOwned), []⟩
  | .vDecodeFailed => ⟨s1.moveToClosed t, .done (.skippedR .decodeFailed), []⟩
  | .vZeroLiq => ⟨s1.moveToClosed t, .done (.skippedR .zeroLiquidity), []⟩
  | .vInRange => ⟨⟨s1.active.erase t, s1.closed⟩, .done (.skippedR .alreadyInRange), []⟩
  | .vOk =>
    if env.postGateThrows then ⟨s1, .raised env.postGateTransient, []⟩
    else if ¬ env.tierEnabled then ⟨s1, .done (.skippedR .tierDisabled), []⟩
    else if env.inRangePre then ⟨s1, .done (.skippedR .driftPre), []⟩
    else ladderOut (runLadder env.att).res (runLadder env.att).submitted s1 t

/-- Everything after the duplicate/closed gate. -/
def execBody (env : RebEnv) (s1 : Tracker) (t : ℕ) : ExecOut :=
  execBodyV env (validation env) s1 t

/-- One pass through the body of `executeIntent` for a REBALANCE intent,
from the duplicate/closed gate (lines 1282–1312) to a terminal receipt or
a throw: the gate either skips (no state change, no submission) or inserts
the token id into `activePositions` and proceeds with `execBody`. -/
def execOnce (env : RebEnv) (s : Tracker) (t : ℕ) : ExecOut :=
  -- lines 1286–1295: skip if already being processed
  if t ∈ s.active then ⟨s, .done (.skippedR .alreadyProcessing), []⟩
  -- lines 1298–1307: skip if already closed/burned
  else if t ∈ s.closed then ⟨s, .done (.skippedR .alreadyClosed), []⟩
  -- line 1310: mark as actively processing, then run the rest
  else execBody env ⟨insert t s.active, s.closed⟩ t

/-- `executeIntent` with its outer catch (lines 2697–2807): a transient
error with `attempt < MAX_RETRIES` re-runs the whole body (the recursive
call of line 2778); otherwise the catch releases the active lock (lines
2784–2787) and reports `failed`.  `fuel` bounds the recursion by
`MAX_RETRIES` attempts; with the source's constants the fuel is never
exhausted. -/
def executeIntentAux (envs : ℕ → RebEnv) (t : ℕ) :
    ℕ → ℕ → Tracker → Tracker × RebResult × List String
  | 0, _, s => (⟨s.active.erase t, s.closed⟩, .failedOuterR, [])
  | fuel + 1, attempt, s =>
    let o := execOnce (envs attempt) s t
    match o.res with
    | .done r => (o.state, r, o.txs)
    | .raised transient =>
      if transient ∧ attempt < MAX_RETRIES then
        let nxt := executeIntentAux envs t fuel (attempt + 1) o.state
        (nxt.1, nxt.2.1, o.txs ++ nxt.2.2)
      else
        (⟨o.state.active.erase t, o.state.closed⟩, .failedOuterR, o.txs)

/-- A full `executeIntent(intent)` call for a REBALANCE intent, starting at
`attempt = 1` as in the source.  The environment family `envs` gives each
attempt its own oracle (chain state can change between retries). -/
def executeIntent (envs : ℕ → RebEnv) (s : Tracker) (t : ℕ) :
    Tracker × RebResult × List String :=
  executeIntentAux envs t MAX_RETRIES 1 s

/-- `processIntentQueue` executes queued intents strictly sequentially
(`await this.executeIntent(intent)` in a `for` loop, lines 3235–3254);
this folds a list of REBALANCE intents for one token id through the
tracker, collecting each one's receipt and submitted transactions. -/
def runIntents : List (ℕ → RebEnv) → Tracker → ℕ →
    Tracker × List (RebResult × List String)
  | [], s, _ => (s, [])
  | e :: es, s, t =>
    let o := executeIntent e s t
    let nxt := runIntents es o.1 t
    (nxt.1, (o.2.1, o.2.2) :: nxt.2)

/-! ## The per-attempt transaction loop of a REBALANCE attempt
(daemon-controller.js lines 1783–2029)

One ladder attempt iterates over the built transaction bundle.  For each
transaction: skip `CLOSE_POSITION` if a previous attempt already executed
it; for every index `i > 0` re-read the pool tick and, if the position
drifted back inside `[tickLower, tickUpper]`, report
`status: 'partial'` with `completedTxs: i + (needsSwap && i > 0 ? 1 : 0)`
and stop; otherwise submit and await the receipt (a zero status throws);
after `CLOSE_POSITION` confirms, set the `positionClosed` flag and, when
the bundle needs a rebalancing swap and imbalance data is present, run the
aggregator swap (its quote/assembly/validation may throw before any
submission, and the submitted swap may revert). -/

/-- How far the injected aggregator swap gets. -/
inductive SwapStage
  | quoteFails
  | swapReverts
  | swapConfirms
deriving DecidableEq

/-- Oracle environment for one attempt's transaction loop. -/
structure TxEnv where
  needsSwap : Bool
  hasImbalance : Bool
  tickLower : ℤ
  tickUpper : ℤ
  checkTick : ℕ → ℤ
  confirmOk : ℕ → Bool
  swapStage : SwapStage

/-- How the transaction loop ends: all transactions done, aborted with a
`partial` report (field = the reported `completedTxs`), or a throw into
the ladder's catch. -/
inductive TxLoopRes
  | finished
  | abortedInRange (completedTxs : ℕ)
  | raisedTx
deriving DecidableEq

/-- Loop exit: result, the `positionClosed` flag, and every transaction
submitted to chain (by label), in order. -/
structure TxLoopOut where
  res : TxLoopRes
  closed : Bool
  submitted : List String
deriving DecidableEq

/-- The transaction loop itself, over the bundle's labels; `i` is the loop
index, `closed` the `positionClosed` flag, `sub` the transactions already
submitted in this attempt. -/
def runTxLoop (env : TxEnv) : List String → ℕ → Bool → List String → TxLoopOut
  | [], _, closed, sub => ⟨.finished, closed, sub⟩
  | label :: rest, i, closed, sub =>
    -- lines 1788–1791: CLOSE_POSITION already executed in a prior attempt
    if closed ∧ label = "CLOSE_POSITION" then
      runTxLoop env rest (i + 1) closed sub
    -- lines 1796–1815: drift re-check before every transaction beyond the first
    else if 0 < i ∧ env.tickLower ≤ env.checkTick i ∧ env.checkTick i ≤ env.tickUpper then
      ⟨.abortedInRange (i + if env.needsSwap then 1 else 0), closed, sub⟩
    else
      -- lines 1817–1835: submit and await the receipt
      let sub1 := sub ++ [label]
      if ¬ env.confirmOk i then ⟨.raisedTx, closed, sub1⟩
      else
        -- lines 1838–1841: mark the position closed after TX1 confirms
        let closed1 := closed ∨ label = "CLOSE_POSITION"
        -- lines 1844–2024: inject the aggregator swap after CLOSE_POSITION
        if label = "CLOSE_POSITION" ∧ env.needsSwap ∧ env.hasImbalance then
          match env.swapStage with
          | .quoteFails => ⟨.raisedTx, closed1, sub1⟩
          | .swapReverts => ⟨.raisedTx, closed1, sub1 ++ ["SWAP_TOKENS"]⟩
          | .swapConfirms => runTxLoop env rest (i + 1) closed1 (sub1 ++ ["SWAP_TOKENS"])
        else runTxLoop env rest (i + 1) closed1 sub1

/-! ## Grace Period Monitor (src/server/api/grace-period-monitor.js) -/

/-- `COLLECTION_THRESHOLD_MS` (line 11), in milliseconds. -/
def COLLECTION_THRESHOLD_MS : ℤ := 60000

/-- `MIN_CLAIMABLE_SHADOW` (line 239). -/
def MIN_CLAIMABLE_SHADOW : ℚ := 1 / 1000

/-- A platform position row as the monitor sees it (already filtered to a
grace-period status with a `graceExpiresAt`). -/
structure GracePos where
  tokenId : ℕ
  graceExpiresAt : ℤ
  shadowRewards : ℚ

/-- The `shouldCollect` condition of
`GracePeriodMonitor.handlePositionInGracePeriod` (lines 223–226). -/
def shouldCollect (timeRemaining : ℤ) (shadowCollected : Bool) : Bool :=
  (decide (timeRemaining < COLLECTION_THRESHOLD_MS) && !shadowCollected) ||
  (decide (timeRemaining ≤ 0) && !shadowCollected)

/-- Whether `handlePositionInGracePeriod` calls `collectShadowForPosition`
— i.e. triggers a harvest (Shadow collection) transaction — for a tracked
position at wall-clock time `now` (lines 228–243).  The function's inputs
are exactly the inputs the source reads: it consults no position-tracker
state. -/
def monitorTriggersHarvest (p : GracePos) (shadowCollected : Bool) (now : ℤ) : Bool :=
  shouldCollect (p.graceExpiresAt - now) shadowCollected &&
  decide (p.shadowRewards > MIN_CLAIMABLE_SHADOW)

/-! ## Intent verifier policy gate (src/server/api/intent-verifier.js) -/

/-- The intent fields `validatePolicy` reads. -/
structure IntentData where
  maxFeePerGas : Option ℕ
  slippageBps : Option ℕ
deriving DecidableEq

/-- The policy fields `validatePolicy` reads.  JS numbers are modelled as
rationals (balances) and naturals (gas/slippage); a `0` behaves as falsy
where the source tests truthiness. -/
structure PolicyData where
  autoRebalancing : Option Bool
  emergencyStopEnabled : Bool
  currentBalance : Option ℚ
  emergencyStopThreshold : Option ℚ
  allowedHours : Option (ℕ × ℕ)
  maxGasPrice : Option ℕ
  maxSlippageBps : Option ℕ
deriving DecidableEq

/-- The rejection reasons `validatePolicy` logs. -/
inductive PolicyReject
  | automationDisabled
  | emergencyStop
  | outsideHours
  | gasTooHigh
  | slippageTooHigh
deriving DecidableEq

/-- JS truthiness of an optional numeric field (`undefined` and `0` are
falsy). -/
def truthyN (o : Option ℕ) : Bool :=
  match o with
  | none => false
  | some n => n ≠ 0

/-- The allowed-hours test of `validatePolicy` (lines 201–209): present
`allowedHours = [startHour, endHour]` rejects when the current hour lies
outside the window. -/
def outsideAllowedHours (allowedHours : Option (ℕ × ℕ)) (currentHour : ℕ) : Bool :=
  match allowedHours with
  | some (startHour, endHour) =>
      decide (currentHour < startHour ∨ currentHour > endHour)
  | none => false

/-- `IntentVerifier.validatePolicy(intent, policy)` (lines 172–235).  The
source additionally reads the wall clock — `new Date().getHours()` in the
allowed-hours rule — which is made an explicit `currentHour` argument
here.  `emergencyStopThreshold || 5` maps `undefined` and `0` to `5`.
Returns the boolean together with the rejection reason recorded by the
branch that fired. -/
def validatePolicy (intent : IntentData) (policy : PolicyData)
    (currentHour : ℕ) : Bool × Option PolicyReject :=
  if policy.autoRebalancing = some false then
    (false, some .automationDisabled)
  else if policy.emergencyStopEnabled ∧ policy.currentBalance.isSome ∧
      policy.currentBalance.getD 0 <
        (if policy.emergencyStopThreshold.getD 0 = 0 then 5
         else policy.emergencyStopThreshold.getD 0) then
    (false, some .emergencyStop)
  else if outsideAllowedHours policy.allowedHours currentHour then
    (false, some .outsideHours)
  else if truthyN intent.maxFeePerGas ∧ truthyN policy.maxGasPrice ∧
      intent.maxFeePerGas.getD 0 > policy.maxGasPrice.getD 0 then
    (false, some .gasTooHigh)
  else if truthyN intent.slippageBps ∧ truthyN policy.maxSlippageBps ∧
      intent.slippageBps.getD 0 > policy.maxSlippageBps.getD 0 then
    (false, some .slippageTooHigh)
  else
    (true, none)

/-! ## Lemmas about the tracker transitions -/

lemma disjoint_insert_active (A C : Finset ℕ) (t : ℕ)
    (h : Disjoint A C) (ht : t ∉ C) : Disjoint (insert t A) C :=
  Finset.disjoint_insert_left.mpr ⟨ht, h⟩

lemma disjoint_erase_left (A C : Finset ℕ) (t : ℕ) (h : Disjoint A C) :
    Disjoint (A.erase t) C :=
  h.mono_left (Finset.erase_subset _ _)

lemma disjoint_erase_insert (A C : Finset ℕ) (t : ℕ) (h : Disjoint A C) :
    Disjoint ((insert t A).erase t) (insert t C) := by
  rw [Finset.disjoint_left]
  intro x hx hx2
  rw [Finset.mem_erase, Finset.mem_insert] at hx
  rw [Finset.mem_insert] at hx2
  rcases hx with ⟨hne, hx1 | hx1⟩
  · exact hne hx1
  · rcases hx2 with hx2 | hx2
    · exact hne hx2
    · exact Finset.disjoint_left.mp h hx1 hx2

/-- The gate of lines 1286–1295: a token id in `activePositions` is skipped
with reason "already processing" and no state change, no submissions. -/
lemma execOnce_mem_active (env : RebEnv) (s : Tracker) (t : ℕ)
    (h : t ∈ s.active) :
    execOnce env s t = ⟨s, .done (.skippedR .alreadyProcessing), []⟩ := by
  unfold execOnce
  simp [h]

/-- The gate of lines 1298–1307: a token id in `closedPositions` (and not
in `activePositions`) is skipped with reason "already closed" and no state
change, no submissions. -/
lemma execOnce_mem_closed (env : RebEnv) (s : Tracker) (t : ℕ)
    (h1 : t ∉ s.active) (h2 : t ∈ s.closed) :
    execOnce env s t = ⟨s, .done (.skippedR .alreadyClosed), []⟩ := by
  unfold execOnce
  simp [h1, h2]

lemma executeIntentAux_mem_active (envs : ℕ → RebEnv) (t : ℕ) :
    ∀ fuel attempt (s : Tracker), fuel ≠ 0 → t ∈ s.active →
    executeIntentAux envs t fuel attempt s =
      (s, .skippedR .alreadyProcessing, []) := by
  intro fuel attempt s hf h
  cases fuel with
  | zero => exact absurd rfl hf
  | succ n =>
    simp only [executeIntentAux, execOnce_mem_active (envs attempt) s t h]

lemma executeIntentAux_mem_closed (envs : ℕ → RebEnv) (t : ℕ) :
    ∀ fuel attempt (s : Tracker), fuel ≠ 0 → t ∉ s.active → t ∈ s.closed →
    executeIntentAux envs t fuel attempt s =
      (s, .skippedR .alreadyClosed, []) := by
  intro fuel attempt s hf h1 h2
  cases fuel with
  | zero => exact absurd rfl hf
  | succ n =>
    simp only [executeIntentAux, execOnce_mem_closed (envs attempt) s t h1 h2]

lemma executeIntent_mem_active (envs : ℕ → RebEnv) (s : Tracker) (t : ℕ)
    (h : t ∈ s.active) :
    executeIntent envs s t = (s, .skippedR .alreadyProcessing, []) :=
  executeIntentAux_mem_active envs t MAX_RETRIES 1 s (by decide) h

lemma executeIntent_mem_closed (envs : ℕ → RebEnv) (s : Tracker) (t : ℕ)
    (h1 : t ∉ s.active) (h2 : t ∈ s.closed) :
    executeIntent envs s t = (s, .skippedR .alreadyClosed, []) :=
  executeIntentAux_mem_closed envs t MAX_RETRIES 1 s (by decide) h1 h2

/-- Receipts whose exit path leaves the token id in `activePositions`: the
`partial` abort, the tiers-exhausted failure, the mid-ladder and pre-ladder
drift skips, and the tier-disabled skip all return without releasing the
lock. -/
def retainsLock : RebResult → Bool
  | .partR _ => true
  | .failedTiersR _ => true
  | .skippedR .driftMid => true
  | .skippedR .tierDisabled => true
  | .skippedR .driftPre => true
  | _ => false

/-- Receipts whose exit path moved the token id from `activePositions` to
`closedPositions`: a completed rebalance and the four "position is gone"
skips. -/
def marksClosed : RebResult → Bool
  | .completedFull _ => true
  | .skippedR .notExists => true
  | .skippedR .notOwned => true
  | .skippedR .decodeFailed => true
  | .skippedR .zeroLiquidity => true
  | _ => false

/-- Case analysis of everything after the gate: the `.done` exits either
mark the position closed, or retain the lock, or (in-range skip) release
only the lock; a raised error leaves the state at `s1`. -/
lemma execBody_cases (env : RebEnv) (s1 : Tracker) (t : ℕ) :
    (∃ r, (execBody env s1 t).res = .done r ∧
      ((marksClosed r = true ∧ (execBody env s1 t).state = s1.moveToClosed t) ∨
       (retainsLock r = true ∧ (execBody env s1 t).state = s1) ∨
       (r = .skippedR .alreadyInRange ∧
         (execBody env s1 t).state = ⟨s1.active.erase t, s1.closed⟩) ∨
       (r = .fellThroughR ∧ (execBody env s1 t).state = s1))) ∨
    (∃ b, (execBody env s1 t).res = .raised b ∧ (execBody env s1 t).state = s1) := by
  unfold execBody
  cases validation env <;> simp only [execBodyV]
  case vOk =>
    split_ifs with hP hT hPre
    all_goals try exact Or.inr ⟨_, rfl, rfl⟩
    all_goals try (refine Or.inl ⟨_, rfl, ?_⟩; simp [retainsLock])
    cases hr : (runLadder env.att).res <;> simp only [ladderOut] <;>
      refine Or.inl ⟨_, rfl, ?_⟩ <;> simp [marksClosed, retainsLock]
  all_goals refine Or.inl ⟨_, rfl, ?_⟩
  all_goals simp [marksClosed, retainsLock]

/-- Every branch of one `executeIntent` body preserves disjointness of the
two sets: insertion into `active` happens only after the `closed` check,
and every insertion into `closed` is preceded by the `active` delete. -/
lemma execOnce_disjoint (env : RebEnv) (s : Tracker) (t : ℕ)
    (h : Disjoint s.active s.closed) :
    Disjoint (execOnce env s t).state.active (execOnce env s t).state.closed := by
  unfold execOnce
  split_ifs with hA hC
  · exact h
  · exact h
  · have hins : Disjoint (insert t s.active) s.closed :=
      disjoint_insert_active _ _ _ h hC
    rcases execBody_cases env ⟨insert t s.active, s.closed⟩ t with
      ⟨r, _, ⟨_, hst⟩ | ⟨_, hst⟩ | ⟨_, hst⟩ | ⟨_, hst⟩⟩ | ⟨b, _, hst⟩ <;> rw [hst]
    · exact disjoint_erase_insert _ _ _ h
    · exact hins
    · exact disjoint_erase_left _ _ _ hins
    · exact hins
    · exact hins

lemma executeIntentAux_disjoint (envs : ℕ → RebEnv) (t : ℕ) :
    ∀ fuel attempt (s : Tracker), Disjoint s.active s.closed →
    Disjoint (executeIntentAux envs t fuel attempt s).1.active
      (executeIntentAux envs t fuel attempt s).1.closed := by
  intro fuel
  induction fuel with
  | zero =>
    intro attempt s h
    simp only [executeIntentAux]
    exact disjoint_erase_left _ _ _ h
  | succ n ih =>
    intro attempt s h
    have hd := execOnce_disjoint (envs attempt) s t h
    simp only [executeIntentAux]
    cases hres : (execOnce (envs attempt) s t).res with
    | done r => simp only [hres]; exact hd
    | raised transient =>
      simp only [hres]
      split_ifs with hcond
      · exact ih (attempt + 1) _ hd
      · exact disjoint_erase_left _ _ _ hd

/-- **C10.** The `activePositions` and `closedPositions` sets stay
disjoint across any REBALANCE `executeIntent` call, whatever the chain and
platform respond: a token id is inserted into `active` only after the
`closed`-membership check failed, and every insertion into `closed` first
deletes the id from `active`, so no token id is ever a member of both sets
at once (starting from disjoint sets, e.g. the constructor's empty sets). -/
theorem tracker_sets_stay_disjoint (envs : ℕ → RebEnv) (s : Tracker) (t : ℕ)
    (h : Disjoint s.active s.closed) :
    Disjoint (executeIntent envs s t).1.active (executeIntent envs s t).1.closed :=
  executeIntentAux_disjoint envs t MAX_RETRIES 1 s h

/-- No receipt both marks the position closed and retains the lock. -/
lemma marks_retains_exclusive (r : RebResult) :
    marksClosed r = true → retainsLock r = true → False := by
  cases r
  case skippedR reason => cases reason <;> simp [marksClosed, retainsLock]
  all_goals simp [marksClosed, retainsLock]

/-- If one `executeIntent` body ends with a closed-marking receipt, the
token id is in `closedPositions` and out of `activePositions` afterwards. -/
lemma execOnce_marks (env : RebEnv) (s : Tracker) (t : ℕ) (r : RebResult)
    (h : (execOnce env s t).res = .done r) (hm : marksClosed r = true) :
    t ∈ (execOnce env s t).state.closed ∧ t ∉ (execOnce env s t).state.active := by
  unfold execOnce at h ⊢
  split_ifs at h ⊢ with hA hC
  · simp at h; subst h; simp [marksClosed] at hm
  · simp at h; subst h; simp [marksClosed] at hm
  · rcases execBody_cases env ⟨insert t s.active, s.closed⟩ t with
      ⟨r', hres, hcase⟩ | ⟨b, hres, hst⟩
    · rw [hres] at h
      injection h with h
      subst h
      rcases hcase with ⟨hm2, hst⟩ | ⟨hl, hst⟩ | ⟨heq, hst⟩ | ⟨heq, hst⟩
      · rw [hst]
        exact ⟨by simp [Tracker.moveToClosed], by simp [Tracker.moveToClosed]⟩
      · exact (marks_retains_exclusive _ hm hl).elim
      · subst heq; simp [marksClosed] at hm
      · subst heq; simp [marksClosed] at hm
    · rw [hres] at h; simp at h

/-- If one `executeIntent` body ends with a lock-retaining receipt, the
token id is still in `activePositions` afterwards. -/
lemma execOnce_retains (env : RebEnv) (s : Tracker) (t : ℕ) (r : RebResult)
    (h : (execOnce env s t).res = .done r) (hl : retainsLock r = true) :
    t ∈ (execOnce env s t).state.active := by
  unfold execOnce at h ⊢
  split_ifs at h ⊢ with hA hC
  · simp at h; subst h; simp [retainsLock] at hl
  · simp at h; subst h; simp [retainsLock] at hl
  · rcases execBody_cases env ⟨insert t s.active, s.closed⟩ t with
      ⟨r', hres, hcase⟩ | ⟨b, hres, hst⟩
    · rw [hres] at h
      injection h with h
      subst h
      rcases hcase with ⟨hm2, hst⟩ | ⟨hl2, hst⟩ | ⟨heq, hst⟩ | ⟨heq, hst⟩
      · exact (marks_retains_exclusive _ hm2 hl).elim
      · rw [hst]; simp
      · subst heq; simp [retainsLock] at hl
      · subst heq; simp [retainsLock] at hl
    · rw [hres] at h; simp at h

lemma executeIntentAux_marks (envs : ℕ → RebEnv) (t : ℕ) :
    ∀ fuel attempt (s : Tracker) (r : RebResult),
    (executeIntentAux envs t fuel attempt s).2.1 = r → marksClosed r = true →
    t ∈ (executeIntentAux envs t fuel attempt s).1.closed ∧
    t ∉ (executeIntentAux envs t fuel attempt s).1.active := by
  intro fuel
  induction fuel with
  | zero =>
    intro attempt s r h hm
    simp only [executeIntentAux] at h
    subst h
    simp [marksClosed] at hm
  | succ n ih =>
    intro attempt s r h hm
    simp only [executeIntentAux] at h ⊢
    cases hres : (execOnce (envs attempt) s t).res with
    | done r0 =>
      simp only [hres] at h ⊢
      subst h
      exact execOnce_marks (envs attempt) s t r0 hres hm
    | raised b =>
      simp only [hres] at h ⊢
      split_ifs at h ⊢ with hc
      · exact ih (attempt + 1) _ r h hm
      · subst h
        simp [marksClosed] at hm

lemma executeIntentAux_retains (envs : ℕ → RebEnv) (t : ℕ) :
    ∀ fuel attempt (s : Tracker) (r : RebResult),
    (executeIntentAux envs t fuel attempt s).2.1 = r → retainsLock r = true →
    t ∈ (executeIntentAux envs t fuel attempt s).1.active := by
  intro fuel
  induction fuel with
  | zero =>
    intro attempt s r h hl
    simp only [executeIntentAux] at h
    subst h
    simp [retainsLock] at hl
  | succ n ih =>
    intro attempt s r h hl
    simp only [executeIntentAux] at h ⊢
    cases hres : (execOnce (envs attempt) s t).res with
    | done r0 =>
      simp only [hres] at h ⊢
      subst h
      exact execOnce_retains (envs attempt) s t r0 hres hl
    | raised b =>
      simp only [hres] at h ⊢
      split_ifs at h ⊢ with hc
      · exact ih (attempt + 1) _ r h hl
      · subst h
        simp [retainsLock] at hl

/-- A receipt `skipped`/"already processing" comes only from the gate, which
fires with the token id in `activePositions` and changes nothing — including
the self-collision of the transient retry (line 2778), which re-enters the
gate without the lock having been released. -/
lemma execOnce_processing (env : RebEnv) (s : Tracker) (t : ℕ)
    (h : (execOnce env s t).res = .done (.skippedR .alreadyProcessing)) :
    t ∈ (execOnce env s t).state.active := by
  unfold execOnce at h ⊢
  split_ifs at h ⊢ with hA hC
  · exact hA
  · simp at h
  · rcases execBody_cases env ⟨insert t s.active, s.closed⟩ t with
      ⟨r', hres, hcase⟩ | ⟨b, hres, hst⟩
    · rw [hres] at h
      injection h with h
      subst h
      rcases hcase with ⟨hm2, hst⟩ | ⟨hl2, hst⟩ | ⟨heq, hst⟩ | ⟨heq, hst⟩
      · simp [marksClosed] at hm2
      · simp [retainsLock] at hl2
      · simp at heq
      · simp at heq
    · rw [hres] at h; simp at h

lemma executeIntentAux_processing (envs : ℕ → RebEnv) (t : ℕ) :
    ∀ fuel attempt (s : Tracker),
    (executeIntentAux envs t fuel attempt s).2.1 = .skippedR .alreadyProcessing →
    t ∈ (executeIntentAux envs t fuel attempt s).1.active := by
  intro fuel
  induction fuel with
  | zero =>
    intro attempt s h
    simp only [executeIntentAux] at h
    simp at h
  | succ n ih =>
    intro attempt s h
    simp only [executeIntentAux] at h ⊢
    cases hres : (execOnce (envs attempt) s t).res with
    | done r0 =>
      simp only [hres] at h ⊢
      rw [h] at hres
      exact execOnce_processing (envs attempt) s t hres
    | raised b =>
      simp only [hres] at h ⊢
      split_ifs at h ⊢ with hc
      exact ih (attempt + 1) _ h

/-! ## Concrete environments used by the closed evaluations -/

/-- A ladder attempt that succeeds at once, closing and reopening. -/
def fullSuccessStep : AttemptStep :=
  ⟨.completedA, true, ["CLOSE_POSITION", "OPEN_POSITION"]⟩

/-- An execution environment in which the chain and platform behave: the
position exists, is owned, has liquidity, is out of range, the tier is
enabled, nothing throws, and the first ladder attempt completes. -/
def baseEnv : RebEnv where
  tokenExists := true
  owned := true
  decodeOk := true
  liqPositive := true
  inRangeFirst := false
  postGateThrows := false
  postGateTransient := false
  tierEnabled := true
  inRangePre := false
  att := fun _ _ => fullSuccessStep

/-! ## C1: a closed token id is skipped forever -/

/-- **C1.** For every token id in the `closedPositions` set (and, by the
disjointness invariant, not in `activePositions`), executing any number of
REBALANCE intents for that id produces only receipts
`skipped` / "already closed" with zero transactions submitted to chain,
and the id is still in `closedPositions` afterwards — nothing in the
source ever removes an element from `closedPositions`, so this holds for
the remainder of the process lifetime. -/
theorem rebalance_closed_tokenId_only_skipped
    (l : List (ℕ → RebEnv)) (s : Tracker) (t : ℕ)
    (h1 : t ∈ s.closed) (h2 : t ∉ s.active) :
    (∀ pr ∈ (runIntents l s t).2,
      pr = (RebResult.skippedR .alreadyClosed, ([] : List String))) ∧
    t ∈ (runIntents l s t).1.closed := by
  induction l with
  | nil =>
    constructor
    · intro pr hpr
      simp [runIntents] at hpr
    · simpa [runIntents] using h1
  | cons e es ih =>
    have hstep := executeIntent_mem_closed e s t h2 h1
    constructor
    · intro pr hpr
      simp only [runIntents, hstep, List.mem_cons] at hpr
      rcases hpr with hpr | hpr
      · exact hpr
      · exact ih.1 pr hpr
    · simp only [runIntents, hstep]
      exact ih.2

/-- Witness for C1: token id 42 already closed, two further REBALANCE
intents — both receipts are `skipped`/"already closed" with no
transactions, and 42 stays in the closed set. -/
theorem rebalance_closed_tokenId_only_skipped_witness :
    (42 ∈ (Tracker.mk ∅ {42}).closed ∧ 42 ∉ (Tracker.mk ∅ {42}).active) ∧
    ((∀ pr ∈ (runIntents [fun _ => baseEnv, fun _ => baseEnv] ⟨∅, {42}⟩ 42).2,
        pr = (RebResult.skippedR .alreadyClosed, ([] : List String))) ∧
      42 ∈ (runIntents [fun _ => baseEnv, fun _ => baseEnv] ⟨∅, {42}⟩ 42).1.closed) :=
  ⟨⟨by decide, by decide⟩,
   rebalance_closed_tokenId_only_skipped _ _ 42 (by decide) (by decide)⟩

/-! ## C2: the slippage ladder exhausts exactly the five tiers -/

/-- **C2.** A REBALANCE whose attempt body throws at every configured
slippage tier ends with the receipt `failed`, `attemptsExhausted = 5`
(the source reports `SWAP_SLIPPAGE_TIERS.length`), and the slippage
values attempted are exactly `[20, 50, 100, 200, 500]` basis points, in
order — there is no sixth tier. -/
theorem rebalance_ladder_exhausts_five_tiers (att : ℕ → Bool → AttemptStep)
    (h : ∀ k c, (att k c).outcome = .throwA) :
    (runLadder att).res = .failedL 5 ∧
    (runLadder att).attempted = [20, 50, 100, 200, 500] := by
  simp [runLadder, runLadderAux, SWAP_SLIPPAGE_TIERS, h]

/-- Witness for C2 with the environment in which every attempt throws. -/
theorem rebalance_ladder_exhausts_five_tiers_witness :
    (∀ (k : ℕ) (c : Bool),
      ((fun (_ : ℕ) (_ : Bool) => AttemptStep.mk .throwA false []) k c).outcome
        = .throwA) ∧
    (runLadder (fun _ _ => ⟨.throwA, false, []⟩)).res = .failedL 5 ∧
    (runLadder (fun _ _ => ⟨.throwA, false, []⟩)).attempted
      = [20, 50, 100, 200, 500] :=
  ⟨fun _ _ => rfl,
   (rebalance_ladder_exhausts_five_tiers _ (fun _ _ => rfl)).1,
   (rebalance_ladder_exhausts_five_tiers _ (fun _ _ => rfl)).2⟩

/-! ## C3: drift back in range between close and reopen -/

/-- A close+reopen bundle whose swap is required and runs to confirmation,
with the pool tick inside `[-10, 10]` at every drift re-check. -/
def swapDriftEnv : TxEnv :=
  ⟨true, true, -10, 10, fun _ => 0, fun _ => true, .swapConfirms⟩

/-- A close+reopen bundle needing no swap, with the pool tick inside
`[-10, 10]` at every drift re-check. -/
def noSwapDriftEnv : TxEnv :=
  ⟨false, false, -10, 10, fun _ => 0, fun _ => true, .swapConfirms⟩

/-- **C3 counterexample.** When the bundle required a rebalancing swap,
the close confirmed, the swap executed, and the tick was observed in range
before the reopen was submitted, the source reports `partial` with
`completedTxs = i + (needsSwap && i > 0 ? 1 : 0) = 2`, not `1` — the
claim's `completedTxs = 1` fails for swap-bearing executions (no further
transactions are submitted, as claimed). -/
theorem rebalance_partReport_counterexample :
    runTxLoop swapDriftEnv ["CLOSE_POSITION", "OPEN_POSITION"] 0 false [] =
      ⟨.abortedInRange 2, true, ["CLOSE_POSITION", "SWAP_TOKENS"]⟩ ∧
    (2 : ℕ) ≠ 1 :=
  ⟨by decide, by decide⟩

/-- **C3 (amended).** For every REBALANCE execution whose bundle requires
no rebalancing swap: if the close transaction confirmed and the pool tick
is observed inside `[tickLower, tickUpper]` before the reopen transaction
is submitted, the engine submits no further transactions — only the close
was ever sent — and reports `partial` with `completedTxs = 1`.  (With a
swap step the same abort reports `completedTxs = 2`, counting the swap.) -/
theorem rebalance_partReport_after_close_no_swap (env : TxEnv)
    (hsw : env.needsSwap = false)
    (hc : env.confirmOk 0 = true)
    (hlo : env.tickLower ≤ env.checkTick 1)
    (hhi : env.checkTick 1 ≤ env.tickUpper) :
    runTxLoop env ["CLOSE_POSITION", "OPEN_POSITION"] 0 false [] =
      ⟨.abortedInRange 1, true, ["CLOSE_POSITION"]⟩ := by
  simp [runTxLoop, hsw, hc, hlo, hhi]

/-- Witness for C3's amended theorem on the concrete no-swap bundle. -/
theorem rebalance_partReport_after_close_no_swap_witness :
    runTxLoop noSwapDriftEnv ["CLOSE_POSITION", "OPEN_POSITION"] 0 false [] =
      ⟨.abortedInRange 1, true, ["CLOSE_POSITION"]⟩ :=
  rebalance_partReport_after_close_no_swap noSwapDriftEnv rfl rfl
    (by decide) (by decide)

/-! ## C4: two back-to-back REBALANCE intents for one token id -/

/-- **C4 counterexample.** Two REBALANCE intents for token id 7 executed
back-to-back (the queue is strictly sequential) with the first completing
its rebalance: the second is skipped, but with reason "already closed" —
not the claimed "already processing", which only occurs when the first
left the id locked (partial / ladder-exhausted exits). -/
theorem duplicate_rebalance_counterexample :
    (executeIntent (fun _ => baseEnv) ⟨∅, ∅⟩ 7).2.1 = .completedFull 20 ∧
    (executeIntent (fun _ => baseEnv)
        (executeIntent (fun _ => baseEnv) ⟨∅, ∅⟩ 7).1 7).2.1 =
      .skippedR .alreadyClosed ∧
    SkipReason.alreadyClosed ≠ SkipReason.alreadyProcessing :=
  ⟨by decide, by decide, by decide⟩

/-- **C4 (amended).** For every pair of REBALANCE intents for the same
token id executed back-to-back (the queue is strictly sequential), the
second one's receipt is decided by the tracker state the first left
behind: if the first ended in a closed-marking receipt (completed
rebalance, or position observed gone), the second is skipped with reason
"already closed" — in particular never "already processing" after a
successful first rebalance, contrary to the claim; if the first ended in
a lock-retaining receipt (`partial`, tiers-exhausted `failed`, drift or
tier-disabled skips, none of which release the active lock), the second
is skipped with reason "already processing"; and if the first was itself
skipped "already processing" (as happens when a transient error retries
via line 2778 into its own gate without the lock having been released),
the second is skipped with reason "already processing" as well. -/
theorem duplicate_rebalance_second_intent
    (e1 e2 : ℕ → RebEnv) (s : Tracker) (t : ℕ) :
    (marksClosed (executeIntent e1 s t).2.1 = true →
      (executeIntent e2 (executeIntent e1 s t).1 t).2.1 =
        .skippedR .alreadyClosed) ∧
    (retainsLock (executeIntent e1 s t).2.1 = true →
      (executeIntent e2 (executeIntent e1 s t).1 t).2.1 =
        .skippedR .alreadyProcessing) ∧
    ((executeIntent e1 s t).2.1 = .skippedR .alreadyProcessing →
      (executeIntent e2 (executeIntent e1 s t).1 t).2.1 =
        .skippedR .alreadyProcessing) := by
  refine ⟨?_, ?_, ?_⟩
  · intro hm
    obtain ⟨hc, hna⟩ := executeIntentAux_marks e1 t MAX_RETRIES 1 s _ rfl hm
    have hc' : t ∈ (executeIntent e1 s t).1.closed := hc
    have hna' : t ∉ (executeIntent e1 s t).1.active := hna
    rw [executeIntent_mem_closed e2 _ t hna' hc']
  · intro hl
    have ha : t ∈ (executeIntent e1 s t).1.active :=
      executeIntentAux_retains e1 t MAX_RETRIES 1 s _ rfl hl
    rw [executeIntent_mem_active e2 _ t ha]
  · intro hp
    have ha : t ∈ (executeIntent e1 s t).1.active :=
      executeIntentAux_processing e1 t MAX_RETRIES 1 s hp
    rw [executeIntent_mem_active e2 _ t ha]

/-- Witness for C4's amended theorem: first intent completes, second is
skipped "already closed". -/
theorem duplicate_rebalance_second_intent_witness :
    marksClosed (executeIntent (fun _ => baseEnv) ⟨∅, ∅⟩ 9).2.1 = true ∧
    (executeIntent (fun _ => baseEnv)
        (executeIntent (fun _ => baseEnv) ⟨∅, ∅⟩ 9).1 9).2.1 =
      .skippedR .alreadyClosed :=
  ⟨by decide, (duplicate_rebalance_second_intent _ _ _ 9).1 (by decide)⟩

/-- Witness for C10 from the constructor's empty (hence disjoint) sets. -/
theorem tracker_sets_stay_disjoint_witness :
    Disjoint (Tracker.mk ∅ ∅).active (Tracker.mk ∅ ∅).closed ∧
    Disjoint (executeIntent (fun _ => baseEnv) ⟨∅, ∅⟩ 5).1.active
      (executeIntent (fun _ => baseEnv) ⟨∅, ∅⟩ 5).1.closed :=
  ⟨by simp, tracker_sets_stay_disjoint _ _ 5 (by simp)⟩

/-! ## C5: the grace monitor and the active set -/

/-- **C5 evaluation.** `GracePeriodMonitor.handlePositionInGracePeriod`
consults only its own tracking map and the position row — no field of the
function reads the Position Tracker's `active` set — so for a concrete
daemon state whose `activePositions` contains token id 42, and a grace
position for id 42 with 45 s remaining and 1.0 SHADOW not yet collected,
the monitor still triggers the harvest (contradicting the spec's
"guarded by checking the Position Tracker's `active` set before
harvesting"). -/
theorem grace_monitor_ignores_active_set :
    42 ∈ (Tracker.mk {42} ∅).active ∧
    monitorTriggersHarvest ⟨42, 45000, 1⟩ false 0 = true :=
  ⟨by decide, by norm_num [monitorTriggersHarvest, shouldCollect,
    MIN_CLAIMABLE_SHADOW, COLLECTION_THRESHOLD_MS]⟩

/-! ## C9: determinism of the policy gate -/

/-- A policy whose only constraint is the allowed-hours window 9–17. -/
def hoursPolicy : PolicyData := ⟨none, false, none, none, some (9, 17), none, none⟩

/-- A policy with no constraints at all. -/
def openPolicy : PolicyData := ⟨none, false, none, none, none, none, none⟩

/-- An intent declaring no gas or slippage constraints. -/
def plainIntent : IntentData := ⟨none, none⟩

/-- **C9 counterexample.** `validatePolicy` reads the wall clock
(`new Date().getHours()`): with identical `(intent, policy)` arguments it
returns `(false, outsideHours)` at hour 8 and `(true, none)` at hour 12,
so it is not a pure function of the `(intent, policy)` pair. -/
theorem validatePolicy_clock_dependent :
    validatePolicy plainIntent hoursPolicy 8 = (false, some .outsideHours) ∧
    validatePolicy plainIntent hoursPolicy 12 = (true, none) ∧
    validatePolicy plainIntent hoursPolicy 8 ≠
      validatePolicy plainIntent hoursPolicy 12 :=
  ⟨by decide, by decide, by decide⟩

/-- **C9 (amended).** `validatePolicy` is a deterministic pure function of
`(intent, policy, currentHour)`; the wall clock enters only through the
allowed-hours rule, so whenever the policy sets no `allowedHours` window,
identical `(intent, policy)` pairs return the same boolean and record the
same rejection reason regardless of when they are invoked. -/
theorem validatePolicy_deterministic_in_inputs_and_hour
    (intent : IntentData) (policy : PolicyData) (h1 h2 : ℕ)
    (hh : policy.allowedHours = none) :
    validatePolicy intent policy h1 = validatePolicy intent policy h2 := by
  simp [validatePolicy, outsideAllowedHours, hh]

/-- Witness for C9's amended theorem at hours 3 and 23. -/
theorem validatePolicy_deterministic_witness :
    openPolicy.allowedHours = none ∧
    validatePolicy plainIntent openPolicy 3 =
      validatePolicy plainIntent openPolicy 23 :=
  ⟨rfl, validatePolicy_deterministic_in_inputs_and_hour plainIntent openPolicy
    3 23 rfl⟩

end Bulwk
